import Mathlib

/-!
Shallow embedding of the FastAPI-JWT-Authentication repository
(`database.py`, `models.py`, `middleware.py`, `main.py`; the `auth.py` and
`schemas.py` modules are not in the provided sources and are modelled from
the spec where needed).  Python strings are Lean `String`s, Python `None`
and JSON null are modelled explicitly, machine state (the database) is
passed explicitly, and every fallible handler returns `Except HTTPError`.
-/

namespace FastapiJwtAuth

/-- Python's `str.startswith`: character-list prefix test. -/
def pyStartsWith (s pre : String) : Bool := pre.data.isPrefixOf s.data

/-- `middleware.py` line 15: the allow-list of public routes. -/
def public_routes : List String :=
  ["/", "/login/", "/register/", "/docs", "/redoc", "/openapi.json"]

/-- `middleware.py` line 16: a path is public when it is a member of
`public_routes` (Python `in`) or starts with one of the entries of
`public_routes[1:]` (every entry except the leading `"/"`). -/
def isPublicPath (path : String) : Bool :=
  public_routes.any (fun r => path == r) ||
    (public_routes.drop 1).any (fun r => pyStartsWith path r)

/-- Follows the spec's words (not the code), for comparison with
`isPublicPath`: exact match on `/`, `/login/`, `/register/` and prefix
match only on `/docs`, `/redoc`, `/openapi.json`. -/
def claimedPublicPath (path : String) : Bool :=
  (path == "/" || path == "/login/" || path == "/register/") ||
    (["/docs", "/redoc", "/openapi.json"].any (fun r => pyStartsWith path r))

/-- A structured HTTP error, as raised via `HTTPException(status_code, detail)`. -/
structure HTTPError where
  statusCode : Nat
  detail : String
deriving Repr, DecidableEq

/-- Modelled from the spec: `auth.py` is absent from the provided sources.
The process-wide token-signing secret key, loaded once at startup. -/
def SECRET_KEY : String := "process-secret"

/-- Modelled from the spec: `auth.py` is absent from the provided sources.
The fixed symmetric signing algorithm name. -/
def ALGORITHM : String := "HS256"

/-- A JSON claim value: a string, a number, or null (Python `None`). -/
inductive JVal where
  | str (s : String)
  | num (n : Nat)
  | null
deriving Repr, DecidableEq

/-- A decoded claim set: an association list of claim names to values. -/
abbrev ClaimSet := List (String × JVal)

/-- Python `dict.get(k)`: the first value bound to `k`, or `None` (`JVal.null`)
when the key is absent. -/
def pyGet (d : ClaimSet) (k : String) : JVal :=
  ((d.find? (fun kv => kv.fst == k)).map Prod.snd).getD JVal.null

/-- Python `dict[k]`: `none` models the `KeyError` raised when `k` is absent. -/
def pyIndex (d : ClaimSet) (k : String) : Option JVal :=
  (d.find? (fun kv => kv.fst == k)).map Prod.snd

/-- A signed JWT, modelled from the spec: the encoded claims (the supplied
data plus an `exp` claim), the expiry instant, and the key and algorithm it
was signed with.  Times are minutes. -/
structure Token where
  payload : ClaimSet
  exp : Nat
  key : String
  alg : String
deriving Repr, DecidableEq

/-- Modelled from the spec: `auth.py` is absent from the provided sources.
`create_access_token(data, expires_delta)` signs the supplied claims plus an
expiration timestamp with the process-wide secret and algorithm. -/
def create_access_token (data : ClaimSet) (expires_delta : Nat) (now : Nat) : Token :=
  { payload := data ++ [("exp", JVal.num (now + expires_delta))]
    exp := now + expires_delta
    key := SECRET_KEY
    alg := ALGORITHM }

/-- Modelled from the spec: `auth.py` is absent from the provided sources.
`create_refresh_token` has the same contract as `create_access_token`
(callers pass the longer refresh lifetime). -/
def create_refresh_token (data : ClaimSet) (expires_delta : Nat) (now : Nat) : Token :=
  { payload := data ++ [("exp", JVal.num (now + expires_delta))]
    exp := now + expires_delta
    key := SECRET_KEY
    alg := ALGORITHM }

/-- Modelled from the spec: `auth.py` is absent from the provided sources.
`decode_token(token)` returns the decoded claim set when the signature
(key and algorithm) is valid and the token is unexpired at `now`, and an
absent result otherwise; no exception reaches the caller. -/
def decode_token (t : Token) (now : Nat) : Option ClaimSet :=
  if t.key = SECRET_KEY ∧ t.alg = ALGORITHM ∧ now < t.exp then some t.payload else none

/-- Outcome of `AuthMiddleware.dispatch`: a short-circuit JSON rejection, or
forwarding to the route handler with `request.state.user` optionally set. -/
inductive MwResult where
  | reject (statusCode : Nat) (detail : String)
  | forward (user : Option ClaimSet)
deriving Repr, DecidableEq

/-- `middleware.py` lines 12-40.  The `Authorization: Bearer <tok>` header is
modelled as `Option Token` (absent models a missing or non-Bearer header);
`jwt.decode` raising `JWTError` is modelled by `decode_token` returning
`none`. -/
def dispatch (path : String) (bearer : Option Token) (now : Nat) : MwResult :=
  if isPublicPath path then
    MwResult.forward none
  else
    match bearer with
    | none => MwResult.reject 401 "Authorization header missing or invalid"
    | some t =>
      match decode_token t now with
      | none => MwResult.reject 401 "Invalid or expired token"
      | some payload => MwResult.forward (some payload)

/-- `models.py` `User`: id is a generated UUID (modelled as `String`),
username and email unique, password stored hashed, names nullable. -/
structure User where
  id : String
  username : String
  email : String
  password : String
  first_name : Option String
  last_name : Option String
deriving Repr, DecidableEq

/-- `models.py` `Book`: title and price required, author nullable.  The
`Float` price column is modelled as `Int`; only its truthiness (zero versus
nonzero) is relevant to the claims. -/
structure Book where
  id : String
  title : String
  author : Option String
  price : Int
deriving Repr, DecidableEq

/-- `models.py` `Post`: title required, content nullable, creation time
automatic, `user_id` a required foreign key to `User`. -/
structure Post where
  id : String
  title : String
  content : Option String
  created_at : Nat
  user_id : String
deriving Repr, DecidableEq

/-- Modelled from the spec: `schemas.py` is absent from the provided sources.
`UserCreate`: username, email, password1 required; names optional. -/
structure UserCreate where
  username : String
  email : String
  password1 : String
  first_name : Option String
  last_name : Option String
deriving Repr, DecidableEq

/-- Modelled from the spec: `schemas.py` is absent from the provided sources.
`UserResponse`: identifier, username, email and the two names — no password
field exists in this shape. -/
structure UserResponse where
  id : String
  username : String
  email : String
  first_name : Option String
  last_name : Option String
deriving Repr, DecidableEq

/-- Modelled from the spec: `schemas.py` is absent from the provided sources.
`UserLogin`: a username-or-email discriminator plus the password. -/
structure UserLogin where
  username_or_email : String
  password : String
deriving Repr, DecidableEq

/-- Modelled from the spec: `schemas.py` is absent from the provided sources.
`BookUpdate`: a partial-update shape; `none` models an omitted field. -/
structure BookUpdate where
  title : Option String
  author : Option String
  price : Option Int
deriving Repr, DecidableEq

/-- Modelled from the spec: `schemas.py` is absent from the provided sources.
`PostCreate`: title required, content optional. -/
structure PostCreate where
  title : String
  content : Option String
deriving Repr, DecidableEq

/-- Modelled from the spec: `schemas.py` is absent from the provided sources.
`PostUpdate`: a partial-update shape; `none` models a field the caller did
not supply (`exclude_unset`). -/
structure PostUpdate where
  title : Option String
  content : Option String
deriving Repr, DecidableEq

/-- Modelled from the spec: `auth.py` is absent from the provided sources.
`get_password_hash` is an irreversible salted hash; modelled as a tagged
transformation that is never equal to its input. -/
def get_password_hash (p : String) : String := "$hash$" ++ p

/-- Modelled from the spec: `auth.py` is absent from the provided sources.
`verify_password(plain, stored)` is true iff `plain` re-hashes to `stored`. -/
def verify_password (plain stored : String) : Bool :=
  stored == get_password_hash plain

/-- The `User` row constructed at `main.py` lines 32-38. -/
def mkUser (u : UserCreate) (newId : String) : User :=
  { id := newId
    username := u.username
    email := u.email
    password := get_password_hash u.password1
    first_name := u.first_name
    last_name := u.last_name }

/-- Projection of a stored `User` to the `UserResponse` shape
(`response_model=UserResponse` at `main.py` line 25). -/
def toUserResponse (x : User) : UserResponse :=
  { id := x.id, username := x.username, email := x.email
    first_name := x.first_name, last_name := x.last_name }

/-- `main.py` lines 25-42, `register_user`: reject with 400 when some user
already has the username or the email, else insert the new hashed-password
user.  Returns the response together with the resulting user store. -/
def register_user (u : UserCreate) (newId : String) (db : List User) :
    Except HTTPError UserResponse × List User :=
  if (db.find? (fun x => x.username == u.username || x.email == u.email)).isSome then
    (Except.error ⟨400, "Username or email already registered"⟩, db)
  else
    (Except.ok (toUserResponse (mkUser u newId)), db ++ [mkUser u newId])

/-- Python `None`-able string to a JSON value. -/
def joptStr : Option String → JVal
  | none => JVal.null
  | some s => JVal.str s

/-- The claim dictionary built at `main.py` lines 51-57. -/
def user_data (du : User) : ClaimSet :=
  [("username", JVal.str du.username),
   ("email", JVal.str du.email),
   ("first_name", joptStr du.first_name),
   ("last_name", joptStr du.last_name),
   ("user_id", JVal.str du.id)]

/-- The body returned by a successful login (`main.py` lines 67-70). -/
structure LoginResp where
  access_token : Token
  refresh_token : Token
  username : String
  email : String
  first_name : Option String
  last_name : Option String
deriving Repr, DecidableEq

/-- `main.py` lines 44-70, `login_user`: find the first user whose username
or email equals the input; 401 when none is found or the password does not
verify; otherwise issue a 30-minute access token and a 300-minute (5-hour)
refresh token over `user_data` and echo the profile fields. -/
def login_user (u : UserLogin) (db : List User) (now : Nat) :
    Except HTTPError LoginResp :=
  match db.find? (fun x => x.username == u.username_or_email || x.email == u.username_or_email) with
  | none => Except.error ⟨401, "Incorrect username or password"⟩
  | some du =>
    if verify_password u.password du.password then
      Except.ok
        { access_token := create_access_token (user_data du) 30 now
          refresh_token := create_refresh_token (user_data du) 300 now
          username := du.username
          email := du.email
          first_name := du.first_name
          last_name := du.last_name }
    else
      Except.error ⟨401, "Incorrect username or password"⟩

/-- The body returned by `GET /profile/` (`main.py` lines 77-82). -/
structure ProfileResp where
  username : JVal
  email : JVal
  first_name : JVal
  last_name : JVal
deriving Repr, DecidableEq

/-- `main.py` lines 72-82, `profile`: reads `request.state.user` and indexes
it with `user["username"]` and `user["email"]` (a raised `KeyError` — an
unstructured failure — is modelled by `none`) while the two names use the
non-raising `user.get`. -/
def profile (user : ClaimSet) : Option ProfileResp :=
  match pyIndex user "username", pyIndex user "email" with
  | some uv, some ev =>
    some { username := uv, email := ev
           first_name := pyGet user "first_name", last_name := pyGet user "last_name" }
  | _, _ => none

/-- The body returned by a successful `POST /refresh_token` (`main.py` line 101). -/
structure RefreshResp where
  message : String
  access_token : Token
  refresh_token : Token
deriving Repr, DecidableEq

/-- `main.py` lines 84-101, `refresh_api_token`: decode the supplied refresh
token; 401 when decoding fails or `payload.get("username")` is `None`;
otherwise issue a fresh 30-minute access token and 300-minute refresh token
whose only supplied claim is `{"sub": username}`. -/
def refresh_api_token (refresh_token : Token) (now : Nat) : Except HTTPError RefreshResp :=
  match decode_token refresh_token now with
  | none => Except.error ⟨401, "Invalid refresh token"⟩
  | some payload =>
    match pyGet payload "username" with
    | JVal.null => Except.error ⟨401, "Invalid refresh token"⟩
    | v =>
      Except.ok
        { message := "Token Refreshed Successfully"
          access_token := create_access_token [("sub", v)] 30 now
          refresh_token := create_refresh_token [("sub", v)] 300 now }

/-- Replace the first list entry satisfying `pred` (the row mutated and
committed after a `.first()` query). -/
def replaceFirst {α : Type} (pred : α → Bool) (nv : α) : List α → List α
  | [] => []
  | x :: xs => if pred x then nv :: xs else x :: replaceFirst pred nv xs

/-- Python truthiness of an optional string: `None` and `""` are falsy. -/
def truthyStr : Option String → Bool
  | none => false
  | some s => !(s == "")

/-- Python truthiness of an optional number: `None` and `0` are falsy. -/
def truthyInt : Option Int → Bool
  | none => false
  | some n => !(n == 0)

/-- `main.py` lines 140-153, `patch_book`: fetch the book by id (404 when
absent), then for each of title/author/price overwrite the stored field only
when the supplied value is truthy (`if book.title: ...` etc.), and commit. -/
def patch_book (i : String) (u : BookUpdate) (db : List Book) :
    Except HTTPError (Book × List Book) :=
  match db.find? (fun b => b.id == i) with
  | none => Except.error ⟨404, "Book not found"⟩
  | some b =>
    let b1 := if truthyStr u.title then { b with title := u.title.getD b.title } else b
    let b2 := if truthyStr u.author then { b1 with author := u.author } else b1
    let b3 := if truthyInt u.price then { b2 with price := u.price.getD b2.price } else b2
    Except.ok (b3, replaceFirst (fun x => x.id == i) b3 db)

/-- Follows the claim's words (not the code), for comparison with
`patch_book`: each field is overwritten iff its supplied value is truthy,
and is otherwise left at the stored value. -/
def claimedBookPatch (u : BookUpdate) (b : Book) : Book :=
  { id := b.id
    title := if truthyStr u.title then u.title.getD b.title else b.title
    author := if truthyStr u.author then u.author else b.author
    price := if truthyInt u.price then u.price.getD b.price else b.price }

/-- The SQLAlchemy query shared by the id-addressed Post handlers
(`main.py` lines 188, 200, 216): first post matching the id AND the
caller's user_id. -/
def postQuery (uid i : String) (db : List Post) : Option Post :=
  db.find? (fun p => p.id == i && p.user_id == uid)

/-- One item of the `GET /api/posts/` response (`main.py` line 168). -/
structure PostItem where
  id : String
  title : String
  content : Option String
  author : String
deriving Repr, DecidableEq

/-- The `GET /api/posts/` response body (`main.py` line 168). -/
structure PostListResp where
  total : Nat
  data : List PostItem
  status : Bool
deriving Repr, DecidableEq

/-- The owning user's username via the `post.author` relationship. -/
def authorUsername (users : List User) (p : Post) : String :=
  match users.find? (fun x => x.id == p.user_id) with
  | some x => x.username
  | none => ""

/-- `main.py` lines 165-168, `get_posts`: list only the posts whose
`user_id` equals the caller's user_id. -/
def get_posts (uid : String) (users : List User) (db : List Post) : PostListResp :=
  let ps := db.filter (fun p => p.user_id == uid)
  { total := ps.length
    data := ps.map (fun p => ⟨p.id, p.title, p.content, authorUsername users p⟩)
    status := true }

/-- `main.py` lines 185-195, `put_post`: fetch by id AND caller's user_id
(404 "Post not found" when absent), overwrite title and content, commit. -/
def put_post (uid i : String) (body : PostCreate) (db : List Post) :
    Except HTTPError (Post × List Post) :=
  match postQuery uid i db with
  | none => Except.error ⟨404, "Post not found"⟩
  | some p =>
    let p2 := { p with title := body.title, content := body.content }
    Except.ok (p2, replaceFirst (fun x => x.id == i && x.user_id == uid) p2 db)

/-- `main.py` lines 197-211, `patch_post`: fetch by id AND caller's user_id
(404 when absent), set exactly the fields the caller supplied, commit. -/
def patch_post (uid i : String) (u : PostUpdate) (db : List Post) :
    Except HTTPError (Post × List Post) :=
  match postQuery uid i db with
  | none => Except.error ⟨404, "Post not found"⟩
  | some p =>
    let p2 := { p with title := u.title.getD p.title,
                       content := match u.content with
                                  | some c => some c
                                  | none => p.content }
    Except.ok (p2, replaceFirst (fun x => x.id == i && x.user_id == uid) p2 db)

/-- The body returned by `DELETE /api/posts/{id}` on success (`main.py` line 221). -/
structure DeleteResp where
  status : Bool
  message : String
deriving Repr, DecidableEq

/-- `main.py` lines 213-221, `delete_post`: fetch by id AND caller's
user_id (404 when absent), delete the row, commit. -/
def delete_post (uid i : String) (db : List Post) :
    Except HTTPError (DeleteResp × List Post) :=
  match postQuery uid i db with
  | none => Except.error ⟨404, "Post not found"⟩
  | some _ =>
    Except.ok (⟨true, "Post deleted successfully"⟩,
               db.eraseP (fun x => x.id == i && x.user_id == uid))

/-- The environment variables read at `database.py` lines 9-13; each is
`none` when unset (Python `os.environ.get` returning `None`). -/
structure Env where
  DB_NAME : Option String
  DB_PASSWORD : Option String
  DB_USER : Option String
  DB_HOST : Option String
  DB_PORT : Option String
deriving Repr, DecidableEq

/-- Rendering of an optional environment value inside a Python f-string:
an unset variable renders as the literal `"None"`. -/
def envRender : Option String → String
  | none => "None"
  | some s => s

/-- `database.py` line 15: the connection string
`postgresql://{DB_USER}:{DB_PASSWORD}@{DB_HOST}/{DB_NAME}`. -/
def DATABASE_URL (e : Env) : String :=
  "postgresql://" ++ envRender e.DB_USER ++ ":" ++ envRender e.DB_PASSWORD ++
    "@" ++ envRender e.DB_HOST ++ "/" ++ envRender e.DB_NAME

theorem isPrefixOf_self (l : List Char) : l.isPrefixOf l = true := by
  simp [List.isPrefixOf_iff_prefix]

theorem startsWith_of_beq (s r : String) (h : (s == r) = true) : pyStartsWith s r = true := by
  have hr : s = r := eq_of_beq h
  subst hr
  exact isPrefixOf_self s.data

/-- Claim C1, counterexample: the path `"/login/x"` merely starts with
`"/login/"` yet the middleware treats it as public, while the claimed
exact-match rule classifies it as protected. -/
theorem public_login_subpath_counterexample :
    isPublicPath "/login/x" = true ∧ claimedPublicPath "/login/x" = false := by
  decide

/-- Claim C1, amended: the middleware treats a path as public exactly when
it equals `"/"` or starts with one of `"/login/"`, `"/register/"`,
`"/docs"`, `"/redoc"`, `"/openapi.json"` — prefix matching applies to every
allow-list entry except the leading `"/"`, so `"/login/x"` is public. -/
theorem isPublicPath_amended (path : String) :
    isPublicPath path =
      (path == "/" ||
        (["/login/", "/register/", "/docs", "/redoc", "/openapi.json"].any
          (fun r => pyStartsWith path r))) := by
  have h2 := startsWith_of_beq path "/login/"
  have h3 := startsWith_of_beq path "/register/"
  have h4 := startsWith_of_beq path "/docs"
  have h5 := startsWith_of_beq path "/redoc"
  have h6 := startsWith_of_beq path "/openapi.json"
  simp only [isPublicPath, public_routes, List.any_cons, List.any_nil,
    Bool.or_false, List.drop_succ_cons, List.drop_zero]
  cases hb2 : path == "/login/" <;> cases hb3 : path == "/register/" <;>
    cases hb4 : path == "/docs" <;> cases hb5 : path == "/redoc" <;>
      cases hb6 : path == "/openapi.json" <;> simp_all

/-- Claim C2: every Post operation filters by the caller's user_id in
addition to the Post id.  When no post with the requested id is owned by the
caller — whether the id is absent entirely or the post belongs to another
user — PUT, PATCH and DELETE answer 404 "Post not found", the very response
produced over a store from which every post with that id has been removed;
and the list response is identical to the response over a store containing
only the caller's posts.  The caller cannot distinguish "does not exist"
from "owned by someone else". -/
theorem posts_owner_isolation (uid i : String) (body : PostCreate) (u : PostUpdate)
    (users : List User) (db : List Post)
    (h : ∀ p ∈ db, p.id = i → p.user_id ≠ uid) :
    put_post uid i body db = Except.error ⟨404, "Post not found"⟩ ∧
    patch_post uid i u db = Except.error ⟨404, "Post not found"⟩ ∧
    delete_post uid i db = Except.error ⟨404, "Post not found"⟩ ∧
    put_post uid i body db = put_post uid i body (db.filter (fun p => !(p.id == i))) ∧
    patch_post uid i u db = patch_post uid i u (db.filter (fun p => !(p.id == i))) ∧
    delete_post uid i db = delete_post uid i (db.filter (fun p => !(p.id == i))) ∧
    get_posts uid users db = get_posts uid users (db.filter (fun p => p.user_id == uid)) := by
  have hq : postQuery uid i db = none := by
    rw [postQuery, List.find?_eq_none]
    intro p hp
    simp only [Bool.and_eq_true, beq_iff_eq, not_and]
    exact fun h1 => h p hp h1
  have hq2 : postQuery uid i (db.filter (fun p => !(p.id == i))) = none := by
    rw [postQuery, List.find?_eq_none]
    intro p hp
    have hm := List.mem_filter.mp hp
    simp only [Bool.not_eq_true', beq_eq_false_iff_ne] at hm
    simp only [Bool.and_eq_true, beq_iff_eq, not_and]
    exact fun h1 _ => hm.2 h1
  refine ⟨?_, ?_, ?_, ?_, ?_, ?_, ?_⟩ <;>
    simp [put_post, patch_post, delete_post, hq, hq2, get_posts, List.filter_filter]

/-- Witness for C2: a store holding one post owned by user `u1`, queried by
user `u2` with the post's own id, answers 404 "Post not found". -/
theorem posts_owner_isolation_witness :
    (∀ p ∈ [Post.mk "p1" "t" none 0 "u1"], p.id = "p1" → p.user_id ≠ "u2") ∧
    put_post "u2" "p1" ⟨"T", none⟩ [Post.mk "p1" "t" none 0 "u1"] =
      Except.error ⟨404, "Post not found"⟩ :=
  ⟨by decide,
   (posts_owner_isolation "u2" "p1" ⟨"T", none⟩ ⟨none, none⟩ []
      [Post.mk "p1" "t" none 0 "u1"] (by decide)).1⟩

/-- Claim C3: PATCH /api/books/{id}/ on an existing book overwrites each of
title, author, price iff the supplied value is truthy; a field supplied as a
falsy value (empty string, zero) or not supplied at all leaves the stored
value unchanged.  `claimedBookPatch` is that per-field characterization. -/
theorem patch_book_truthiness (i : String) (u : BookUpdate) (db : List Book) (b : Book)
    (h : db.find? (fun x => x.id == i) = some b) :
    patch_book i u db =
      Except.ok (claimedBookPatch u b,
        replaceFirst (fun x => x.id == i) (claimedBookPatch u b) db) := by
  simp only [patch_book, h]
  cases ht : truthyStr u.title <;> cases ha : truthyStr u.author <;>
    cases hp : truthyInt u.price <;> simp [claimedBookPatch, ht, ha, hp]

/-- Witness for C3: supplying a falsy author (`""`) together with a truthy
price (`5`) updates only the price of the stored book. -/
theorem patch_book_truthiness_witness :
    ([Book.mk "b1" "t" (some "a") 3].find? (fun x => x.id == "b1") =
        some (Book.mk "b1" "t" (some "a") 3)) ∧
    patch_book "b1" ⟨none, some "", some 5⟩ [Book.mk "b1" "t" (some "a") 3] =
      Except.ok (claimedBookPatch ⟨none, some "", some 5⟩ (Book.mk "b1" "t" (some "a") 3),
        replaceFirst (fun x => x.id == "b1")
          (claimedBookPatch ⟨none, some "", some 5⟩ (Book.mk "b1" "t" (some "a") 3))
          [Book.mk "b1" "t" (some "a") 3]) :=
  ⟨by decide,
   patch_book_truthiness "b1" ⟨none, some "", some 5⟩ [Book.mk "b1" "t" (some "a") 3]
     (Book.mk "b1" "t" (some "a") 3) (by decide)⟩

/-- Claim C4: POST /register/ answers 400 "Username or email already
registered" and leaves the store unchanged exactly when some existing user
has the supplied username or email; otherwise it appends exactly one new
user whose stored password is the hash of password1 — never the plaintext —
and returns the password-free `UserResponse` shape. -/
theorem register_user_spec (u : UserCreate) (newId : String) (db : List User) :
    ((∃ x ∈ db, x.username = u.username ∨ x.email = u.email) →
        register_user u newId db =
          (Except.error ⟨400, "Username or email already registered"⟩, db)) ∧
    ((∀ x ∈ db, x.username ≠ u.username ∧ x.email ≠ u.email) →
        register_user u newId db =
          (Except.ok (toUserResponse (mkUser u newId)), db ++ [mkUser u newId]) ∧
        (mkUser u newId).password = get_password_hash u.password1 ∧
        (mkUser u newId).password ≠ u.password1) := by
  constructor
  · intro hex
    have hs : (db.find? (fun x => x.username == u.username || x.email == u.email)).isSome := by
      rw [List.find?_isSome]
      obtain ⟨x, hx, hor⟩ := hex
      refine ⟨x, hx, ?_⟩
      rcases hor with h1 | h1 <;> simp [h1]
    simp [register_user, hs]
  · intro hall
    have hnone : db.find? (fun x => x.username == u.username || x.email == u.email) = none := by
      rw [List.find?_eq_none]
      intro x hx
      simp only [Bool.or_eq_true, beq_iff_eq]
      push_neg
      exact hall x hx
    refine ⟨by simp [register_user, hnone], rfl, ?_⟩
    intro hcontr
    have hlen := congrArg String.length hcontr
    simp only [mkUser, get_password_hash, String.length_append] at hlen
    have h6 : ("$hash$" : String).length = 6 := rfl
    rw [h6] at hlen
    omega

/-- Witness for C4: registering a duplicate username is rejected with the
store unchanged, and registering into an empty store appends the one new
hashed-password user. -/
theorem register_user_spec_witness :
    register_user ⟨"alice", "b@x", "pw", none, none⟩ "id2"
        [User.mk "id1" "alice" "a@x" "h" none none] =
      (Except.error ⟨400, "Username or email already registered"⟩,
        [User.mk "id1" "alice" "a@x" "h" none none]) ∧
    register_user ⟨"bob", "b@x", "pw", none, none⟩ "id2" [] =
      (Except.ok (toUserResponse (mkUser ⟨"bob", "b@x", "pw", none, none⟩ "id2")),
        [] ++ [mkUser ⟨"bob", "b@x", "pw", none, none⟩ "id2"]) :=
  ⟨(register_user_spec ⟨"alice", "b@x", "pw", none, none⟩ "id2"
      [User.mk "id1" "alice" "a@x" "h" none none]).1
      ⟨User.mk "id1" "alice" "a@x" "h" none none, by decide, Or.inl rfl⟩,
   ((register_user_spec ⟨"bob", "b@x", "pw", none, none⟩ "id2" []).2 (by simp)).1⟩

/-- Claim C5: POST /login/ answers 401 "Incorrect username or password"
exactly when no user's username or email equals the supplied
username_or_email, or the supplied password does not verify against the
(first) matching user's stored hash; otherwise it returns access and refresh
tokens over that user's claims — username, email, first_name, last_name,
user_id — together with the echoed profile fields. -/
theorem login_user_spec (u : UserLogin) (db : List User) (now : Nat) :
    ((∀ x ∈ db, x.username ≠ u.username_or_email ∧ x.email ≠ u.username_or_email) →
        login_user u db now = Except.error ⟨401, "Incorrect username or password"⟩) ∧
    (∀ du, db.find? (fun x => x.username == u.username_or_email ||
              x.email == u.username_or_email) = some du →
      (verify_password u.password du.password = false →
          login_user u db now = Except.error ⟨401, "Incorrect username or password"⟩) ∧
      (verify_password u.password du.password = true →
          login_user u db now = Except.ok
            { access_token := create_access_token (user_data du) 30 now
              refresh_token := create_refresh_token (user_data du) 300 now
              username := du.username, email := du.email
              first_name := du.first_name, last_name := du.last_name } ∧
          (create_access_token (user_data du) 30 now).payload =
            user_data du ++ [("exp", JVal.num (now + 30))] ∧
          (create_refresh_token (user_data du) 300 now).payload =
            user_data du ++ [("exp", JVal.num (now + 300))] ∧
          (user_data du).map Prod.fst =
            ["username", "email", "first_name", "last_name", "user_id"])) := by
  constructor
  · intro hall
    have hnone : db.find? (fun x => x.username == u.username_or_email ||
        x.email == u.username_or_email) = none := by
      rw [List.find?_eq_none]
      intro x hx
      simp only [Bool.or_eq_true, beq_iff_eq]
      push_neg
      exact hall x hx
    simp [login_user, hnone]
  · intro du hdu
    constructor
    · intro hv
      simp [login_user, hdu, hv]
    · intro hv
      exact ⟨by simp [login_user, hdu, hv], rfl, rfl, rfl⟩

/-- Witness for C5: a wrong password is rejected 401, and the correct
password for the stored hash of `"pw"` logs in and receives the two tokens
over the user's five claims. -/
theorem login_user_spec_witness :
    login_user ⟨"alice", "bad"⟩
        [User.mk "id1" "alice" "a@x" (get_password_hash "pw") none none] 0 =
      Except.error ⟨401, "Incorrect username or password"⟩ ∧
    login_user ⟨"alice", "pw"⟩
        [User.mk "id1" "alice" "a@x" (get_password_hash "pw") none none] 0 =
      Except.ok
        { access_token := create_access_token
            (user_data (User.mk "id1" "alice" "a@x" (get_password_hash "pw") none none)) 30 0
          refresh_token := create_refresh_token
            (user_data (User.mk "id1" "alice" "a@x" (get_password_hash "pw") none none)) 300 0
          username := "alice", email := "a@x"
          first_name := none, last_name := none } :=
  ⟨((login_user_spec ⟨"alice", "bad"⟩
      [User.mk "id1" "alice" "a@x" (get_password_hash "pw") none none] 0).2
      (User.mk "id1" "alice" "a@x" (get_password_hash "pw") none none) (by decide)).1
      (by decide),
   (((login_user_spec ⟨"alice", "pw"⟩
      [User.mk "id1" "alice" "a@x" (get_password_hash "pw") none none] 0).2
      (User.mk "id1" "alice" "a@x" (get_password_hash "pw") none none) (by decide)).2
      (by decide)).1⟩

/-- Claim C6: POST /refresh_token answers 401 "Invalid refresh token",
issuing no tokens, exactly when decoding the supplied token yields no
payload or the decoded payload has no "username" claim (Python
`payload.get("username") is None`); otherwise it answers 200 with message
"Token Refreshed Successfully" and a fresh access and refresh token. -/
theorem refresh_api_token_spec (t : Token) (now : Nat) :
    (decode_token t now = none →
        refresh_api_token t now = Except.error ⟨401, "Invalid refresh token"⟩) ∧
    (∀ p, decode_token t now = some p → pyGet p "username" = JVal.null →
        refresh_api_token t now = Except.error ⟨401, "Invalid refresh token"⟩) ∧
    (∀ p, decode_token t now = some p → pyGet p "username" ≠ JVal.null →
        refresh_api_token t now = Except.ok
          { message := "Token Refreshed Successfully"
            access_token := create_access_token [("sub", pyGet p "username")] 30 now
            refresh_token := create_refresh_token [("sub", pyGet p "username")] 300 now }) := by
  refine ⟨fun hd => ?_, fun p hd hnull => ?_, fun p hd hnn => ?_⟩
  · simp [refresh_api_token, hd]
  · simp only [refresh_api_token, hd]
    rw [hnull]
  · cases hval : pyGet p "username" with
    | null => exact absurd hval hnn
    | str s => simp only [refresh_api_token, hd, hval]
    | num n => simp only [refresh_api_token, hd, hval]

/-- Witness for C6: an expired token is rejected 401; a valid token whose
payload holds a "username" claim is refreshed. -/
theorem refresh_api_token_spec_witness :
    refresh_api_token (create_refresh_token [("username", JVal.str "a")] 300 0) 400 =
      Except.error ⟨401, "Invalid refresh token"⟩ ∧
    refresh_api_token (create_refresh_token [("username", JVal.str "a")] 300 0) 10 =
      Except.ok
        { message := "Token Refreshed Successfully"
          access_token := create_access_token
            [("sub", pyGet [("username", JVal.str "a"), ("exp", JVal.num 300)] "username")] 30 10
          refresh_token := create_refresh_token
            [("sub", pyGet [("username", JVal.str "a"), ("exp", JVal.num 300)] "username")] 300 10 } :=
  ⟨(refresh_api_token_spec (create_refresh_token [("username", JVal.str "a")] 300 0) 400).1
      (by decide),
   (refresh_api_token_spec (create_refresh_token [("username", JVal.str "a")] 300 0) 10).2.2
      [("username", JVal.str "a"), ("exp", JVal.num 300)] (by decide) (by decide)⟩

theorem refresh_of_sub_token (v : JVal) (d now now2 : Nat) :
    refresh_api_token
      (Token.mk [("sub", v), ("exp", JVal.num (now + d))] (now + d) SECRET_KEY ALGORITHM)
      now2 = Except.error ⟨401, "Invalid refresh token"⟩ := by
  simp only [refresh_api_token, decode_token]
  by_cases hlt : now2 < now + d
  · rw [if_pos ⟨trivial, trivial, hlt⟩]
    rfl
  · rw [if_neg (fun hc => hlt hc.2.2)]

/-- Claim C7: tokens issued by a successful POST /refresh_token carry only a
"sub" claim (plus "exp"), never a "username" claim, so submitting either of
them back to POST /refresh_token — at any time — is rejected 401 "Invalid
refresh token": the refresh chain breaks after one refresh. -/
theorem refresh_chain_breaks (t : Token) (now now2 : Nat) (r : RefreshResp)
    (h : refresh_api_token t now = Except.ok r) :
    refresh_api_token r.access_token now2 = Except.error ⟨401, "Invalid refresh token"⟩ ∧
    refresh_api_token r.refresh_token now2 = Except.error ⟨401, "Invalid refresh token"⟩ := by
  cases hd : decode_token t now with
  | none => simp [refresh_api_token, hd] at h
  | some p =>
    simp only [refresh_api_token, hd] at h
    cases hval : pyGet p "username" with
    | null => rw [hval] at h; simp at h
    | str s =>
      rw [hval] at h
      simp only [Except.ok.injEq] at h
      subst h
      exact ⟨refresh_of_sub_token (JVal.str s) 30 now now2,
             refresh_of_sub_token (JVal.str s) 300 now now2⟩
    | num n =>
      rw [hval] at h
      simp only [Except.ok.injEq] at h
      subst h
      exact ⟨refresh_of_sub_token (JVal.num n) 30 now now2,
             refresh_of_sub_token (JVal.num n) 300 now now2⟩

/-- Witness for C7: a login-style refresh token is successfully refreshed
once, and the access token of the returned pair is itself rejected 401. -/
theorem refresh_chain_breaks_witness :
    refresh_api_token (create_refresh_token [("username", JVal.str "bob")] 300 0) 10 =
      Except.ok
        { message := "Token Refreshed Successfully"
          access_token := create_access_token [("sub", JVal.str "bob")] 30 10
          refresh_token := create_refresh_token [("sub", JVal.str "bob")] 300 10 } ∧
    refresh_api_token
      (RefreshResp.mk "Token Refreshed Successfully"
        (create_access_token [("sub", JVal.str "bob")] 30 10)
        (create_refresh_token [("sub", JVal.str "bob")] 300 10)).access_token 15 =
      Except.error ⟨401, "Invalid refresh token"⟩ :=
  ⟨rfl,
   (refresh_chain_breaks (create_refresh_token [("username", JVal.str "bob")] 300 0) 10 15
      (RefreshResp.mk "Token Refreshed Successfully"
        (create_access_token [("sub", JVal.str "bob")] 30 10)
        (create_refresh_token [("sub", JVal.str "bob")] 300 10)) rfl).1⟩

/-- Claim C8: decoding a token produced by `create_access_token` or
`create_refresh_token` with the process-wide secret and algorithm, at any
time strictly before the expiry, yields exactly the supplied claims plus the
expiration timestamp; a token whose key or algorithm does not match, or
whose expiry has passed, decodes to an absent result — and `decode_token`
is total, so no exception reaches its caller. -/
theorem token_roundtrip_spec (data : ClaimSet) (delta now t2 : Nat) (tk : Token) :
    (t2 < now + delta →
        decode_token (create_access_token data delta now) t2 =
          some (data ++ [("exp", JVal.num (now + delta))]) ∧
        decode_token (create_refresh_token data delta now) t2 =
          some (data ++ [("exp", JVal.num (now + delta))])) ∧
    (tk.key ≠ SECRET_KEY ∨ tk.alg ≠ ALGORITHM → decode_token tk t2 = none) ∧
    (tk.exp ≤ t2 → decode_token tk t2 = none) := by
  refine ⟨fun h => ⟨?_, ?_⟩, fun h => ?_, fun h => ?_⟩
  · simp [decode_token, create_access_token, h]
  · simp [decode_token, create_refresh_token, h]
  · rw [decode_token, if_neg]
    intro hc
    rcases h with h1 | h1
    · exact h1 hc.1
    · exact h1 hc.2.1
  · rw [decode_token, if_neg]
    intro hc
    exact absurd hc.2.2 (Nat.not_lt.mpr h)

/-- Witness for C8: a token decodes to its claims before expiry, and a token
signed with a different key (also already expired) decodes to nothing. -/
theorem token_roundtrip_spec_witness :
    decode_token (create_access_token [("u", JVal.str "x")] 30 0) 10 =
      some ([("u", JVal.str "x")] ++ [("exp", JVal.num (0 + 30))]) ∧
    decode_token (Token.mk [] 5 "wrong" ALGORITHM) 10 = none :=
  ⟨((token_roundtrip_spec [("u", JVal.str "x")] 30 0 10
      (Token.mk [] 5 "wrong" ALGORITHM)).1 (by decide)).1,
   (token_roundtrip_spec [("u", JVal.str "x")] 30 0 10
      (Token.mk [] 5 "wrong" ALGORITHM)).2.2 (by decide)⟩

/-- Claim C9: a validly-signed, unexpired bearer token whose claim set lacks
a "username"/"email" claim — such as the access token POST /refresh_token
issues, whose only supplied claim is "sub" — passes the middleware, which
forwards the request with the decoded claims, but the GET /profile/ handler
then hits a `KeyError` (`user["username"]`) — modelled by `profile`
returning `none` — an unhandled, unstructured failure rather than a
structured JSON error. -/
theorem refreshed_token_profile_failure :
    dispatch "/profile/" (some (create_access_token [("sub", JVal.str "alice")] 30 0)) 10 =
      MwResult.forward (some [("sub", JVal.str "alice"), ("exp", JVal.num 30)]) ∧
    profile [("sub", JVal.str "alice"), ("exp", JVal.num 30)] = none := by
  exact ⟨rfl, rfl⟩

/-- Claim C10: the connection string built at startup is exactly
`postgresql://<user>:<password>@<host>/<name>`; the configured database
port, though loaded from the environment, never enters it — any two
environments differing only in `DB_PORT` yield the same string. -/
theorem database_url_spec (e : Env) (p : Option String) :
    DATABASE_URL { e with DB_PORT := p } =
      "postgresql://" ++ envRender e.DB_USER ++ ":" ++ envRender e.DB_PASSWORD ++
        "@" ++ envRender e.DB_HOST ++ "/" ++ envRender e.DB_NAME ∧
    DATABASE_URL { e with DB_PORT := p } = DATABASE_URL e :=
  ⟨rfl, rfl⟩

end FastapiJwtAuth
